import Mathlib

/-!
Shallow embedding of `src/index.ts` of mooltiploo-optional-ts: a TypeScript
`Optional<T>` class (a container that may or may not hold a value).

Modelling conventions:
* The slot of an `Optional` holds either a concrete value or the absence
  marker (TypeScript `null`/`undefined`, which the source conflates via
  `isNullOrUndefined`); we model the slot as `Option T` with `none` as the
  absence marker.
* Object identity: each evaluation of `new Optional(...)` in the source
  allocates a fresh object.  We model this with an allocation counter:
  constructing takes the next id `ctr` and returns the container stamped
  with that id together with `ctr + 1`.  Two containers are "the same
  object" exactly when their ids coincide; a container is "newly allocated"
  by a call when its id is at least the counter the call received.
* Errors: the source throws `new Error(msg)` through `assertOn`; calling an
  absent (`undefined`) function raises the host language's TypeError; and
  `orElseThrow` raises the caller-created error object.  These are
  distinguishable error values at runtime, so they get distinct
  constructors (`jsError msg`, `typeErrorNotCallable`, `userError msg`).
  Fallible operations return `Except Err _`.
* Caller-supplied functions (consumers, predicates, mappers, suppliers) are
  pure in the model; each operation additionally returns the trace of
  arguments the supplied function was invoked with, so "invoked exactly
  once with the held value" is the trace being `[v]`.
* A function argument that may be absent at runtime (the source calls some
  with `undefined` in its tests) is modelled as `Option (..→..)`, `none`
  meaning "no function provided".
-/

namespace Mooltiploo

/-- Errors observable from the operations:
`jsError msg` is `throw new Error(msg)` performed by the library itself
(via `assertOn`); `typeErrorNotCallable` is the host-language TypeError
raised when an absent function is called; `userError msg` is an error
object created by a caller-supplied function and raised by `orElseThrow`. -/
inductive Err where
  | jsError (msg : String)
  | typeErrorNotCallable
  | userError (msg : String)
deriving DecidableEq, Repr

/-- `function isNullOrUndefined<T>(value) { return (value === undefined || value === null); }`
with `Option T` as the nullable type and `none` as the absence marker. -/
def isNullOrUndefined {T : Type} (value : Option T) : Bool :=
  value.isNone

/-- `function assertOn(condition, errorMessage) { if (condition) { throw new Error(errorMessage); } }` -/
def assertOn (condition : Bool) (errorMessage : String) : Except Err Unit :=
  if condition then .error (.jsError errorMessage) else .ok ()

/-- The `Optional<T>` class: one slot `value` (which may hold the absence
marker), plus the allocation id `objId` recording which `new Optional(...)`
evaluation created this object. -/
structure Optional (T : Type) where
  objId : Nat
  value : Option T
deriving DecidableEq, Repr

/-- `new Optional(value)` — the class constructor: allocates a fresh object
whose slot is `value`, consuming one id from the allocation counter. -/
def newOptional {T : Type} (value : Option T) (ctr : Nat) : Optional T × Nat :=
  ({ objId := ctr, value := value }, ctr + 1)

namespace Optional

/-- `static ofNullable<T>(value?) { return new Optional(value); }` -/
def ofNullable {T : Type} (value : Option T) (ctr : Nat) : Optional T × Nat :=
  newOptional value ctr

/-- `static of<T>(value) { assertOn(isNullOrUndefined(value), 'NullPointerException : value is not defined'); return new Optional(value); }` -/
def of {T : Type} (value : Option T) (ctr : Nat) : Except Err (Optional T × Nat) :=
  match assertOn (isNullOrUndefined value) "NullPointerException : value is not defined" with
  | .error e => .error e
  | .ok _ => .ok (newOptional value ctr)

/-- `static empty<T>() { return new Optional(undefined); }` -/
def empty (T : Type) (ctr : Nat) : Optional T × Nat :=
  newOptional none ctr

/-- `isEmpty() { return isNullOrUndefined(this.value); }` -/
def isEmpty {T : Type} (self : Optional T) : Bool :=
  isNullOrUndefined self.value

/-- `isPresent() { return !this.isEmpty(); }` -/
def isPresent {T : Type} (self : Optional T) : Bool :=
  !self.isEmpty

/-- `get() { assertOn(this.isEmpty(), 'Can not invoke get on Optional with null/undefined value'); return this.value; }`
(when the assertion passes, the slot holds a concrete value, which is returned). -/
def get {T : Type} (self : Optional T) : Except Err T :=
  match assertOn self.isEmpty "Can not invoke get on Optional with null/undefined value" with
  | .error e => .error e
  | .ok _ =>
      match self.value with
      | some v => .ok v
      | none => .error (.jsError "Can not invoke get on Optional with null/undefined value")

/-- `ifPresent(fn?) { if (this.isPresent()) { fn(this.value); } }`
The returned list is the trace of arguments `fn` was invoked with; calling
an absent `fn` raises the host TypeError. -/
def ifPresent {T : Type} (self : Optional T) (fn : Option (T → Unit)) :
    Except Err (List T) :=
  if self.isPresent then
    match self.value with
    | some v =>
        match fn with
        | none => .error .typeErrorNotCallable
        | some f => let _ := f v; .ok [v]
    | none => .error .typeErrorNotCallable
  else
    .ok []

/-- `ifPresentOrElse(nonEmptyFn, emptyFn) { if (this.isPresent()) { nonEmptyFn(this.value); } else { emptyFn(); } }`
Traces: arguments passed to `nonEmptyFn`, and invocations of `emptyFn`. -/
def ifPresentOrElse {T : Type} (self : Optional T)
    (nonEmptyFn : Option (T → Unit)) (emptyFn : Option (Unit → Unit)) :
    Except Err (List T × List Unit) :=
  if self.isPresent then
    match self.value with
    | some v =>
        match nonEmptyFn with
        | none => .error .typeErrorNotCallable
        | some f => let _ := f v; .ok ([v], [])
    | none => .error .typeErrorNotCallable
  else
    match emptyFn with
    | none => .error .typeErrorNotCallable
    | some f => let _ := f (); .ok ([], [()])

/-- `filter(fn) { if (this.isEmpty()) { return this; } else { return (fn(this.value)) ? new Optional(this.value) : new Optional(undefined); } }`
Returns ((result, new counter), trace of predicate invocations). -/
def filter {T : Type} (self : Optional T) (fn : T → Bool) (ctr : Nat) :
    (Optional T × Nat) × List T :=
  if self.isEmpty then
    ((self, ctr), [])
  else
    match self.value with
    | some v =>
        if fn v then (newOptional (some v) ctr, [v])
        else (newOptional none ctr, [v])
    | none => ((self, ctr), [])

/-- `map<U>(fn) { if (this.isEmpty()) { return new Optional<U>(undefined); } else { return new Optional(fn(this.value)); } }`
The mapper may return the absence marker, hence `fn : T → Option U`. -/
def map {T U : Type} (self : Optional T) (fn : T → Option U) (ctr : Nat) :
    (Optional U × Nat) × List T :=
  if self.isEmpty then
    (newOptional none ctr, [])
  else
    match self.value with
    | some v => (newOptional (fn v) ctr, [v])
    | none => (newOptional none ctr, [])

/-- `flatMap<U>(fn) { if (this.isEmpty()) { return new Optional<U>(undefined); } else { const result = fn(this.value); assertOn(isNullOrUndefined(result), 'Mapping function cannot return null/undefined value'); return result; } }`
The mapper's result may be the absence marker rather than a container,
hence `fn : T → Option (Optional U)`; a returned container is passed
through as-is (no allocation on that path). -/
def flatMap {T U : Type} (self : Optional T) (fn : T → Option (Optional U)) (ctr : Nat) :
    Except Err ((Optional U × Nat) × List T) :=
  if self.isEmpty then
    .ok (newOptional none ctr, [])
  else
    match self.value with
    | some v =>
        match fn v with
        | none => .error (.jsError "Mapping function cannot return null/undefined value")
        | some result => .ok ((result, ctr), [v])
    | none => .ok (newOptional none ctr, [])

/-- `orElse(other) { return this.isPresent() ? this.value : other; }` -/
def orElse {T : Type} (self : Optional T) (other : Option T) : Option T :=
  if self.isPresent then self.value else other

/-- `orElseGet(fn) { return (this.isPresent()) ? this.value : fn(); }`
The supplier may be absent at runtime; the supplier's result is returned
verbatim (it may be the absence marker).  Trace: supplier invocations. -/
def orElseGet {T : Type} (self : Optional T) (fn : Option (Unit → Option T)) :
    Except Err (Option T × List Unit) :=
  if self.isPresent then .ok (self.value, [])
  else
    match fn with
    | none => .error .typeErrorNotCallable
    | some f => .ok (f (), [()])

/-- `or(fn) { if (this.isPresent()) { return this; } else { const result = fn(); assertOn(isNullOrUndefined(result), 'provided function returns null or undefined result'); return result; } }`
The supplier may be absent at runtime, and its result may be the absence
marker rather than a container.  Trace: supplier invocations. -/
def or {T : Type} (self : Optional T) (fn : Option (Unit → Option (Optional T))) :
    Except Err (Optional T × List Unit) :=
  if self.isPresent then .ok (self, [])
  else
    match fn with
    | none => .error .typeErrorNotCallable
    | some f =>
        match f () with
        | none => .error (.jsError "provided function returns null or undefined result")
        | some result => .ok (result, [()])

/-- `orElseThrow(fn) { if (this.isPresent()) { return this.value; } else { throw fn(); } }`
The error supplier creates an error object, modelled by its message; an
absent supplier, when called, raises the host TypeError. -/
def orElseThrow {T : Type} (self : Optional T) (fn : Option (Unit → String)) :
    Except Err T :=
  if self.isPresent then
    match self.value with
    | some v => .ok v
    | none => .error .typeErrorNotCallable
  else
    match fn with
    | none => .error .typeErrorNotCallable
    | some f => .error (.userError (f ()))

/-- `*[Symbol.iterator]() { if (this.isPresent()) { yield this.value; } return; }`
Each traversal request runs the generator afresh; the sequence it yields is
a pure function of the container, modelled as the (zero- or one-element)
list of yielded values. -/
def iterate {T : Type} (self : Optional T) : List T :=
  if self.isPresent then
    match self.value with
    | some v => [v]
    | none => []
  else []

end Optional

/-- The spec's `InvalidArgument` error kind, mapped onto the code's error
values: the library's own `assertOn` errors raised for an absent/unset
required argument or an absent function result (`of` on the absence
marker; `flatMap` whose mapper returns the absence marker; `or` whose
supplier returns the absence marker).  The host TypeError from calling a
non-callable is, in the spec's own taxonomy, a distinct "call-error". -/
def Err.isInvalidArgument : Err → Bool
  | .jsError m =>
      (m == "NullPointerException : value is not defined")
        || (m == "Mapping function cannot return null/undefined value")
        || (m == "provided function returns null or undefined result")
  | _ => false

/-- The spec's `NoSuchElement` error kind, mapped onto the code's error
values: the library's `assertOn` error raised by `get` on an empty
container. -/
def Err.isNoSuchElement : Err → Bool
  | .jsError m => m == "Can not invoke get on Optional with null/undefined value"
  | _ => false

/-- C7: `of` (the spec's `ofPresent`) fails, with an `InvalidArgument`
error, exactly when the argument is the absence marker; for every
non-absent `v` it returns a present container whose `get` is `v` and whose
`isPresent` is `true`. -/
theorem C7_of (T : Type) (ctr : Nat) :
    (Optional.of (none : Option T) ctr
        = .error (.jsError "NullPointerException : value is not defined") ∧
      (∀ e, Optional.of (none : Option T) ctr = .error e →
        e.isInvalidArgument = true)) ∧
    (∀ v : T, Optional.of (some v) ctr = .ok (⟨ctr, some v⟩, ctr + 1) ∧
      Optional.get (⟨ctr, some v⟩ : Optional T) = .ok v ∧
      Optional.isPresent (⟨ctr, some v⟩ : Optional T) = true) := by
  refine ⟨⟨rfl, ?_⟩, fun v => ⟨rfl, rfl, rfl⟩⟩
  intro e he
  simp only [Optional.of, assertOn, isNullOrUndefined, Option.isNone_none,
    if_true] at he
  cases he
  rfl

/-- C7 witness: the theorem applied at `T := Nat`, `ctr := 0`, `v := 5`. -/
theorem C7_witness :
    Optional.of (some (5 : Nat)) 0 = .ok (⟨0, some 5⟩, 1) ∧
    Optional.of (none : Option Nat) 0
      = .error (.jsError "NullPointerException : value is not defined") :=
  ⟨((C7_of Nat 0).2 5).1, (C7_of Nat 0).1.1⟩

/-- C4: `filter` on an empty container returns the receiver itself (the
very same object, same id, no new allocation) without invoking the
predicate; on a present container it invokes the predicate exactly once
with the held value (trace `[v]`) and allocates one new container —
holding the same value when the predicate is true, empty otherwise. -/
theorem C4_filter {T : Type} (self : Optional T) (fn : T → Bool) (ctr : Nat) :
    (self.value = none → self.filter fn ctr = ((self, ctr), [])) ∧
    (∀ v, self.value = some v →
      (fn v = true → self.filter fn ctr = ((⟨ctr, some v⟩, ctr + 1), [v])) ∧
      (fn v = false → self.filter fn ctr = ((⟨ctr, none⟩, ctr + 1), [v]))) := by
  constructor
  · intro h
    simp [Optional.filter, Optional.isEmpty, isNullOrUndefined, h]
  · intro v hv
    constructor <;> intro hfn <;>
      simp [Optional.filter, Optional.isEmpty, isNullOrUndefined, hv, hfn,
        newOptional]

/-- C4 witness: concrete runs of `filter` on empty and present containers
with a predicate that holds only for even numbers. -/
theorem C4_witness :
    Optional.filter (⟨0, (none : Option Nat)⟩) (fun v => v % 2 == 0) 3
        = ((⟨0, none⟩, 3), []) ∧
    Optional.filter (⟨1, some (4 : Nat)⟩) (fun v => v % 2 == 0) 3
        = ((⟨3, some 4⟩, 4), [4]) ∧
    Optional.filter (⟨1, some (5 : Nat)⟩) (fun v => v % 2 == 0) 3
        = ((⟨3, none⟩, 4), [5]) :=
  ⟨(C4_filter ⟨0, none⟩ (fun v => v % 2 == 0) 3).1 rfl,
   (((C4_filter ⟨1, some 4⟩ (fun v => v % 2 == 0) 3).2 4 rfl).1 rfl),
   (((C4_filter ⟨1, some 5⟩ (fun v => v % 2 == 0) 3).2 5 rfl).2 rfl)⟩

/-- C5: `map` on an empty container allocates a new empty container
without invoking the mapper (empty trace); on a present container it
invokes the mapper exactly once with the held value (trace `[v]`) and
allocates a new container whose slot is the mapper's result: empty when
the mapper returned the absence marker, present holding the result
otherwise.  `map` is infallible — its result type contains no error case,
so no failure is raised when the mapper returns the absence marker. -/
theorem C5_map {T U : Type} (self : Optional T) (fn : T → Option U) (ctr : Nat) :
    (self.value = none → self.map fn ctr = ((⟨ctr, none⟩, ctr + 1), [])) ∧
    (∀ v, self.value = some v →
      self.map fn ctr = ((⟨ctr, fn v⟩, ctr + 1), [v]) ∧
      (fn v = none → (self.map fn ctr).1.1.isEmpty = true) ∧
      (∀ u, fn v = some u → (self.map fn ctr).1.1.value = some u)) := by
  constructor
  · intro h
    simp [Optional.map, Optional.isEmpty, isNullOrUndefined, h, newOptional]
  · intro v hv
    refine ⟨?_, ?_, ?_⟩
    · simp [Optional.map, Optional.isEmpty, isNullOrUndefined, hv, newOptional]
    · intro hfn
      simp [Optional.map, Optional.isEmpty, isNullOrUndefined, hv, hfn,
        newOptional]
    · intro u hfn
      simp [Optional.map, Optional.isEmpty, isNullOrUndefined, hv, hfn,
        newOptional]

/-- C5 witness: concrete runs of `map` on empty and present containers,
with mappers returning a concrete value and the absence marker. -/
theorem C5_witness :
    Optional.map (⟨0, (none : Option Nat)⟩) (fun v => some (v + 1)) 7
        = ((⟨7, none⟩, 8), []) ∧
    Optional.map (⟨2, some (10 : Nat)⟩) (fun v => some (v + 1)) 7
        = ((⟨7, some 11⟩, 8), [10]) ∧
    Optional.map (⟨2, some (10 : Nat)⟩) (fun _ => (none : Option Nat)) 7
        = ((⟨7, none⟩, 8), [10]) :=
  ⟨(C5_map ⟨0, none⟩ (fun v => some (v + 1)) 7).1 rfl,
   ((C5_map ⟨2, some 10⟩ (fun v => some (v + 1)) 7).2 10 rfl).1,
   ((C5_map ⟨2, some 10⟩ (fun _ => none) 7).2 10 rfl).1⟩

/-- C8: iterating a present container yields exactly the one held value and
terminates; iterating an empty container yields nothing.  Each traversal
request re-runs the generator on the container, a pure function of it, so
traversals are independent and restartable: two full passes over a present
container yield the value both times (total count 2), and any number `n` of
passes over an empty container yields total count 0. -/
theorem C8_iterate {T : Type} (self : Optional T) :
    (∀ v, self.value = some v →
      self.iterate = [v] ∧
      self.iterate ++ self.iterate = [v, v] ∧
      (self.iterate ++ self.iterate).length = 2) ∧
    (self.value = none →
      self.iterate = [] ∧
      ∀ n : Nat, (List.replicate n self.iterate).flatten.length = 0) := by
  constructor
  · intro v hv
    simp [Optional.iterate, Optional.isPresent, Optional.isEmpty,
      isNullOrUndefined, hv]
  · intro h
    have hit : self.iterate = [] := by
      simp [Optional.iterate, Optional.isPresent, Optional.isEmpty,
        isNullOrUndefined, h]
    refine ⟨hit, fun n => ?_⟩
    simp [hit]

/-- C8 witness: two passes over a present container of `"hello"`-like value
`42` give total count 2; three passes over an empty container give 0. -/
theorem C8_witness :
    (Optional.iterate ⟨0, some (42 : Nat)⟩
        ++ Optional.iterate ⟨0, some (42 : Nat)⟩).length = 2 ∧
    (List.replicate 3 (Optional.iterate ⟨1, (none : Option Nat)⟩)).flatten.length
        = 0 :=
  ⟨((C8_iterate ⟨0, some 42⟩).1 42 rfl).2.2,
   ((C8_iterate ⟨1, (none : Option Nat)⟩).2 rfl).2 3⟩

/-- C1 counterexample: on an empty container, `ifPresent` with an absent
consumer succeeds silently — it raises nothing at all, in particular no
`InvalidArgument` — refuting the claim that the consumer check is upfront
and fires even on an empty container. -/
theorem C1_counterexample :
    Optional.ifPresent (⟨0, (none : Option Nat)⟩) none = .ok [] := rfl

/-- C1 amended: `ifPresent` performs no upfront check of the consumer.  On
an empty container it is a no-op whatever the consumer argument (no error,
nothing invoked).  On a present container with an absent consumer, the
failure arises only at the invocation point and is the host call error
(TypeError for calling a non-callable), not the spec's `InvalidArgument`;
with a supplied consumer, the consumer is invoked exactly once with the
held value. -/
theorem C1_ifPresent_amended {T : Type} (self : Optional T) :
    (self.value = none → ∀ fn, self.ifPresent fn = .ok []) ∧
    (∀ v, self.value = some v →
      self.ifPresent none = .error .typeErrorNotCallable ∧
      Err.isInvalidArgument .typeErrorNotCallable = false ∧
      ∀ f : T → Unit, self.ifPresent (some f) = .ok [v]) := by
  constructor
  · intro h fn
    simp [Optional.ifPresent, Optional.isPresent, Optional.isEmpty,
      isNullOrUndefined, h]
  · intro v hv
    refine ⟨?_, rfl, fun f => ?_⟩ <;>
      simp [Optional.ifPresent, Optional.isPresent, Optional.isEmpty,
        isNullOrUndefined, hv]

/-- C1 witness: the amended theorem applied to an empty container with an
absent consumer, and to a present container with a consumer. -/
theorem C1_witness :
    Optional.ifPresent (⟨1, (none : Option Nat)⟩) none = .ok [] ∧
    Optional.ifPresent (⟨2, some (9 : Nat)⟩) none
        = .error .typeErrorNotCallable ∧
    Optional.ifPresent (⟨2, some (9 : Nat)⟩) (some fun _ => ()) = .ok [9] :=
  ⟨(C1_ifPresent_amended ⟨1, (none : Option Nat)⟩).1 rfl none,
   ((C1_ifPresent_amended ⟨2, some (9 : Nat)⟩).2 9 rfl).1,
   ((C1_ifPresent_amended ⟨2, some (9 : Nat)⟩).2 9 rfl).2.2 (fun _ => ())⟩

/-- C2: `get` fails exactly on an empty container, and the error it raises
is the `NoSuchElement` error; on a present container it returns exactly the
held value.  No other operation ever raises `NoSuchElement`: each fallible
operation's every error fails `isNoSuchElement` (the remaining operations —
`ofNullable`, `empty`, `isEmpty`, `isPresent`, `filter`, `map`, `orElse`
and the iteration protocol — are infallible: their result types have no
error case at all). -/
theorem C2_get_noSuchElement (T U : Type) :
    (∀ self : Optional T, self.value = none →
      self.get = .error (.jsError
        "Can not invoke get on Optional with null/undefined value") ∧
      ∀ e, self.get = .error e → e.isNoSuchElement = true) ∧
    (∀ (self : Optional T) v, self.value = some v → self.get = .ok v) ∧
    (∀ (self : Optional T), (∃ e, self.get = .error e) ↔ self.isEmpty = true) ∧
    (∀ (value : Option T) ctr e,
      Optional.of value ctr = .error e → e.isNoSuchElement = false) ∧
    (∀ (self : Optional T) fn e,
      self.ifPresent fn = .error e → e.isNoSuchElement = false) ∧
    (∀ (self : Optional T) nonEmptyFn emptyFn e,
      self.ifPresentOrElse nonEmptyFn emptyFn = .error e →
        e.isNoSuchElement = false) ∧
    (∀ (self : Optional T) (fn : T → Option (Optional U)) ctr e,
      self.flatMap fn ctr = .error e → e.isNoSuchElement = false) ∧
    (∀ (self : Optional T) fn e,
      self.orElseGet fn = .error e → e.isNoSuchElement = false) ∧
    (∀ (self : Optional T) fn e,
      self.or fn = .error e → e.isNoSuchElement = false) ∧
    (∀ (self : Optional T) fn e,
      self.orElseThrow fn = .error e → e.isNoSuchElement = false) := by
  refine ⟨?_, ?_, ?_, ?_, ?_, ?_, ?_, ?_, ?_, ?_⟩
  · intro self h
    have hg : self.get = .error (.jsError
        "Can not invoke get on Optional with null/undefined value") := by
      simp [Optional.get, assertOn, Optional.isEmpty, isNullOrUndefined, h]
    refine ⟨hg, fun e he => ?_⟩
    rw [hg] at he
    cases he
    rfl
  · intro self v hv
    simp [Optional.get, assertOn, Optional.isEmpty, isNullOrUndefined, hv]
  · intro self
    constructor
    · rintro ⟨e, he⟩
      cases hv : self.value with
      | none => simp [Optional.isEmpty, isNullOrUndefined, hv]
      | some v =>
          rw [(by simp [Optional.get, assertOn, Optional.isEmpty,
            isNullOrUndefined, hv] : self.get = .ok v)] at he
          cases he
    · intro h
      cases hv : self.value with
      | none =>
          refine ⟨.jsError
            "Can not invoke get on Optional with null/undefined value", ?_⟩
          simp [Optional.get, assertOn, Optional.isEmpty, isNullOrUndefined, hv]
      | some v => simp [Optional.isEmpty, isNullOrUndefined, hv] at h
  · intro value ctr e he
    cases hv : value with
    | none =>
        rw [hv] at he
        simp only [Optional.of, assertOn, isNullOrUndefined,
          Option.isNone_none, if_true] at he
        cases he
        rfl
    | some v =>
        rw [hv] at he
        simp [Optional.of, assertOn, isNullOrUndefined] at he
  · intro self fn e he
    cases hv : self.value with
    | none =>
        simp [Optional.ifPresent, Optional.isPresent, Optional.isEmpty,
          isNullOrUndefined, hv] at he
    | some v =>
        cases fn with
        | none =>
            simp only [Optional.ifPresent, Optional.isPresent,
              Optional.isEmpty, isNullOrUndefined, hv] at he
            simp at he
            cases he
            rfl
        | some f =>
            simp [Optional.ifPresent, Optional.isPresent, Optional.isEmpty,
              isNullOrUndefined, hv] at he
  · intro self nonEmptyFn emptyFn e he
    cases hv : self.value with
    | none =>
        cases emptyFn with
        | none =>
            simp only [Optional.ifPresentOrElse, Optional.isPresent,
              Optional.isEmpty, isNullOrUndefined, hv] at he
            simp at he
            cases he
            rfl
        | some f =>
            simp [Optional.ifPresentOrElse, Optional.isPresent,
              Optional.isEmpty, isNullOrUndefined, hv] at he
    | some v =>
        cases nonEmptyFn with
        | none =>
            simp only [Optional.ifPresentOrElse, Optional.isPresent,
              Optional.isEmpty, isNullOrUndefined, hv] at he
            simp at he
            cases he
            rfl
        | some f =>
            simp [Optional.ifPresentOrElse, Optional.isPresent,
              Optional.isEmpty, isNullOrUndefined, hv] at he
  · intro self fn ctr e he
    cases hv : self.value with
    | none =>
        simp [Optional.flatMap, Optional.isEmpty, isNullOrUndefined, hv] at he
    | some v =>
        cases hfn : fn v with
        | none =>
            simp only [Optional.flatMap, Optional.isEmpty,
              isNullOrUndefined, hv, hfn] at he
            simp [hfn] at he
            cases he
            rfl
        | some c =>
            simp [Optional.flatMap, Optional.isEmpty, isNullOrUndefined,
              hv, hfn] at he
  · intro self fn e he
    cases hv : self.value with
    | some v =>
        simp [Optional.orElseGet, Optional.isPresent, Optional.isEmpty,
          isNullOrUndefined, hv] at he
    | none =>
        cases fn with
        | none =>
            simp only [Optional.orElseGet, Optional.isPresent,
              Optional.isEmpty, isNullOrUndefined, hv] at he
            simp at he
            cases he
            rfl
        | some f =>
            simp [Optional.orElseGet, Optional.isPresent, Optional.isEmpty,
              isNullOrUndefined, hv] at he
  · intro self fn e he
    cases hv : self.value with
    | some v =>
        simp [Optional.or, Optional.isPresent, Optional.isEmpty,
          isNullOrUndefined, hv] at he
    | none =>
        cases fn with
        | none =>
            simp only [Optional.or, Optional.isPresent, Optional.isEmpty,
              isNullOrUndefined, hv] at he
            simp at he
            cases he
            rfl
        | some f =>
            cases hf : f () with
            | none =>
                simp only [Optional.or, Optional.isPresent, Optional.isEmpty,
                  isNullOrUndefined, hv, hf] at he
                simp [hf] at he
                cases he
                rfl
            | some c =>
                simp [Optional.or, Optional.isPresent, Optional.isEmpty,
                  isNullOrUndefined, hv, hf] at he
  · intro self fn e he
    cases hv : self.value with
    | some v =>
        simp [Optional.orElseThrow, Optional.isPresent, Optional.isEmpty,
          isNullOrUndefined, hv] at he
    | none =>
        cases fn with
        | none =>
            simp only [Optional.orElseThrow, Optional.isPresent,
              Optional.isEmpty, isNullOrUndefined, hv] at he
            simp at he
            cases he
            rfl
        | some f =>
            simp only [Optional.orElseThrow, Optional.isPresent,
              Optional.isEmpty, isNullOrUndefined, hv] at he
            simp at he
            cases he
            rfl

/-- C2 witness: `get` on a concrete empty container raises the
`NoSuchElement` error; on a concrete present container it returns the held
value. -/
theorem C2_witness :
    Optional.get (⟨0, (none : Option Nat)⟩)
        = .error (.jsError
            "Can not invoke get on Optional with null/undefined value") ∧
    Optional.get (⟨1, some (3 : Nat)⟩) = .ok 3 :=
  ⟨((C2_get_noSuchElement Nat Nat).1 ⟨0, none⟩ rfl).1,
   (C2_get_noSuchElement Nat Nat).2.1 ⟨1, some 3⟩ 3 rfl⟩

/-- C3 counterexample: on an empty container with no supplier provided,
`or` fails with the host call error (TypeError for calling a non-callable)
rather than the spec's `InvalidArgument` — the `assertOn` validation of the
supplier's result is never reached, because calling the absent function
fails first.  This refutes the part of the claim asserting that the
`InvalidArgument` failure covers the "no function provided" case. -/
theorem C3_counterexample :
    Optional.or (⟨0, (none : Option Nat)⟩) none
        = .error .typeErrorNotCallable ∧
    Err.isInvalidArgument .typeErrorNotCallable = false := ⟨rfl, rfl⟩

/-- C3 amended: `or` on a present container returns the receiver itself
(the very same object) without invoking the supplier.  On an empty
container: if no supplier was provided, the call fails with the host call
error (TypeError), not `InvalidArgument`; if the supplier was provided but
returns the absence marker, the call fails with `InvalidArgument`; if the
supplier returns a container, `or` invokes the supplier exactly once and
returns that container as-is. -/
theorem C3_or_amended {T : Type} (self : Optional T) :
    (∀ v, self.value = some v → ∀ fn, self.or fn = .ok (self, [])) ∧
    (self.value = none →
      (self.or none = .error .typeErrorNotCallable ∧
        Err.isInvalidArgument .typeErrorNotCallable = false) ∧
      (∀ f : Unit → Option (Optional T), f () = none →
        self.or (some f) = .error (.jsError
          "provided function returns null or undefined result") ∧
        ∀ e, self.or (some f) = .error e → e.isInvalidArgument = true) ∧
      (∀ (f : Unit → Option (Optional T)) c, f () = some c →
        self.or (some f) = .ok (c, [()]))) := by
  constructor
  · intro v hv fn
    simp [Optional.or, Optional.isPresent, Optional.isEmpty,
      isNullOrUndefined, hv]
  · intro h
    refine ⟨⟨?_, rfl⟩, ?_, ?_⟩
    · simp [Optional.or, Optional.isPresent, Optional.isEmpty,
        isNullOrUndefined, h]
    · intro f hf
      have ho : self.or (some f) = .error (.jsError
          "provided function returns null or undefined result") := by
        simp [Optional.or, Optional.isPresent, Optional.isEmpty,
          isNullOrUndefined, h, hf]
      refine ⟨ho, fun e he => ?_⟩
      rw [ho] at he
      cases he
      rfl
    · intro f c hf
      simp [Optional.or, Optional.isPresent, Optional.isEmpty,
        isNullOrUndefined, h, hf]

/-- C3 witness: the amended theorem applied to concrete containers — a
present receiver returned as-is, an empty receiver with a supplier whose
result is a container, and one whose result is the absence marker. -/
theorem C3_witness :
    Optional.or (⟨5, some (1 : Nat)⟩) none = .ok (⟨5, some 1⟩, []) ∧
    Optional.or (⟨6, (none : Option Nat)⟩)
        (some fun _ => some ⟨9, some 2⟩) = .ok (⟨9, some 2⟩, [()]) ∧
    Optional.or (⟨6, (none : Option Nat)⟩) (some fun _ => none)
        = .error (.jsError "provided function returns null or undefined result") :=
  ⟨(C3_or_amended ⟨5, some (1 : Nat)⟩).1 1 rfl none,
   ((C3_or_amended ⟨6, (none : Option Nat)⟩).2 rfl).2.2
     (fun _ => some ⟨9, some 2⟩) ⟨9, some 2⟩ rfl,
   (((C3_or_amended ⟨6, (none : Option Nat)⟩).2 rfl).2.1
     (fun _ => none) rfl).1⟩

/-- C6: `flatMap` on an empty container allocates a new empty container
without invoking the mapper and raises no error; on a present container it
invokes the mapper exactly once with the held value (trace `[v]`), fails
with `InvalidArgument` exactly when the mapper's result is the absence
marker, and otherwise returns the mapper's container as-is (no wrapping,
no new allocation — in particular an *empty* returned container is not an
error). -/
theorem C6_flatMap {T U : Type} (self : Optional T)
    (fn : T → Option (Optional U)) (ctr : Nat) :
    (self.value = none →
      self.flatMap fn ctr = .ok ((⟨ctr, none⟩, ctr + 1), [])) ∧
    (∀ v, self.value = some v →
      (fn v = none →
        self.flatMap fn ctr = .error (.jsError
          "Mapping function cannot return null/undefined value") ∧
        ∀ e, self.flatMap fn ctr = .error e → e.isInvalidArgument = true) ∧
      (∀ c, fn v = some c → self.flatMap fn ctr = .ok ((c, ctr), [v]))) := by
  constructor
  · intro h
    simp [Optional.flatMap, Optional.isEmpty, isNullOrUndefined, h,
      newOptional]
  · intro v hv
    constructor
    · intro hfn
      have hfm : self.flatMap fn ctr = .error (.jsError
          "Mapping function cannot return null/undefined value") := by
        simp [Optional.flatMap, Optional.isEmpty, isNullOrUndefined, hv, hfn]
      refine ⟨hfm, fun e he => ?_⟩
      rw [hfm] at he
      cases he
      rfl
    · intro c hfn
      simp [Optional.flatMap, Optional.isEmpty, isNullOrUndefined, hv, hfn]

/-- C6 witness: concrete runs of `flatMap` — empty receiver, present
receiver with a mapper returning a container (even an empty one, no
error), and present receiver with a mapper returning the absence marker. -/
theorem C6_witness :
    Optional.flatMap (⟨0, (none : Option Nat)⟩)
        (fun _ => some (⟨9, some (1 : Nat)⟩ : Optional Nat)) 4
        = .ok ((⟨4, none⟩, 5), []) ∧
    Optional.flatMap (⟨1, some (8 : Nat)⟩)
        (fun _ => some (⟨9, (none : Option Nat)⟩ : Optional Nat)) 4
        = .ok ((⟨9, none⟩, 4), [8]) ∧
    Optional.flatMap (⟨1, some (8 : Nat)⟩)
        (fun _ => (none : Option (Optional Nat))) 4
        = .error (.jsError "Mapping function cannot return null/undefined value") :=
  ⟨(C6_flatMap (⟨0, (none : Option Nat)⟩)
      (fun _ => some (⟨9, some (1 : Nat)⟩ : Optional Nat)) 4).1 rfl,
   ((C6_flatMap (⟨1, some (8 : Nat)⟩)
      (fun _ => some (⟨9, (none : Option Nat)⟩ : Optional Nat)) 4).2 8 rfl).2
      ⟨9, none⟩ rfl,
   (((C6_flatMap (⟨1, some (8 : Nat)⟩)
      (fun _ => (none : Option (Optional Nat))) 4).2 8 rfl).1 rfl).1⟩

/-- C9 counterexample: `flatMap` on a present receiver (id 0) with a
mapper returning a *pre-existing* container (id 1, allocated before the
call — every id the call could allocate is at least the incoming counter
2) returns that container as-is.  The result is neither a new container
nor the unchanged receiver, refuting the claim that every transforming
operation produces its result as a new container or the receiver. -/
theorem C9_counterexample :
    Optional.flatMap (⟨0, some (7 : Nat)⟩)
        (fun _ => some (⟨1, (none : Option Nat)⟩ : Optional Nat)) 2
        = .ok ((⟨1, none⟩, 2), [7]) ∧
    (1 : Nat) ≠ 0 ∧ (1 : Nat) < 2 := ⟨rfl, by decide, by decide⟩

/-- C9 amended: receivers are never mutated (operations are functions of
the receiver; the source field is read-only and no method assigns it) and
no operation transitions an existing container between states.  The
allocation discipline is: `filter` on an empty receiver returns the
receiver itself with no allocation, and on a present receiver allocates a
new container (id = the incoming counter, distinct from every previously
allocated id, in particular the receiver's); `map` always allocates a new
container; `flatMap` on an empty receiver allocates a new container, but
on a present receiver passes the mapper's container through as-is — it
need not be new nor the receiver; `or` on a present receiver returns the
receiver itself, and on an empty receiver passes the supplier's container
through as-is. -/
theorem C9_amended {T U : Type} (self : Optional T) (ctr : Nat)
    (h : self.objId < ctr) :
    (self.value = none → ∀ fn, self.filter fn ctr = ((self, ctr), [])) ∧
    (∀ v, self.value = some v → ∀ fn,
      (self.filter fn ctr).1.1.objId = ctr ∧
      (self.filter fn ctr).1.1.objId ≠ self.objId ∧
      (self.filter fn ctr).1.2 = ctr + 1) ∧
    (∀ fn : T → Option U,
      (self.map fn ctr).1.1.objId = ctr ∧
      (self.map fn ctr).1.1.objId ≠ self.objId) ∧
    (self.value = none → ∀ fn : T → Option (Optional U),
      self.flatMap fn ctr = .ok ((⟨ctr, none⟩, ctr + 1), []) ∧
      ctr ≠ self.objId) ∧
    (∀ v, self.value = some v → ∀ (fn : T → Option (Optional U)) c,
      fn v = some c → self.flatMap fn ctr = .ok ((c, ctr), [v])) ∧
    (∀ v, self.value = some v → ∀ fn, self.or fn = .ok (self, [])) ∧
    (self.value = none → ∀ (f : Unit → Option (Optional T)) c,
      f () = some c → self.or (some f) = .ok (c, [()])) := by
  have hne : ctr ≠ self.objId := Nat.ne_of_gt h
  refine ⟨?_, ?_, ?_, ?_, ?_, ?_, ?_⟩
  · intro hv fn
    simp [Optional.filter, Optional.isEmpty, isNullOrUndefined, hv]
  · intro v hv fn
    by_cases hfn : fn v = true <;>
      simp [Optional.filter, Optional.isEmpty, isNullOrUndefined, hv, hfn,
        newOptional, hne]
  · intro fn
    cases hv : self.value <;>
      simp [Optional.map, Optional.isEmpty, isNullOrUndefined, hv,
        newOptional, hne]
  · intro hv fn
    simp [Optional.flatMap, Optional.isEmpty, isNullOrUndefined, hv,
      newOptional, hne]
  · intro v hv fn c hfn
    simp [Optional.flatMap, Optional.isEmpty, isNullOrUndefined, hv, hfn]
  · intro v hv fn
    simp [Optional.or, Optional.isPresent, Optional.isEmpty,
      isNullOrUndefined, hv]
  · intro hv f c hf
    simp [Optional.or, Optional.isPresent, Optional.isEmpty,
      isNullOrUndefined, hv, hf]

/-- C9 witness: the amended theorem applied at concrete containers — a
present receiver under `filter` (fresh result) and under `or` (receiver
returned), and an empty receiver under `filter` (receiver returned). -/
theorem C9_witness :
    (Optional.filter (⟨0, some (3 : Nat)⟩) (fun _ => true) 1).1.1.objId = 1 ∧
    Optional.or (⟨0, some (3 : Nat)⟩) none = .ok (⟨0, some 3⟩, []) ∧
    Optional.filter (⟨0, (none : Option Nat)⟩) (fun _ => true) 1
        = ((⟨0, none⟩, 1), []) :=
  ⟨(((C9_amended (U := Nat) ⟨0, some (3 : Nat)⟩ 1 (by decide)).2.1
      3 rfl (fun _ => true))).1,
   ((C9_amended (U := Nat) ⟨0, some (3 : Nat)⟩ 1 (by decide)).2.2.2.2.2.1
      3 rfl none),
   ((C9_amended (U := Nat) ⟨0, (none : Option Nat)⟩ 1 (by decide)).1
      rfl (fun _ => true))⟩

/-- C10: `ofNullable` on a non-absent value builds a container with the
same slot as the one `of` builds, and `ofNullable` on the absence marker
builds a container with the same slot as `empty` — and two containers with
equal slots are observationally equivalent: they agree (at the level of
every observable output: booleans, returned values, errors, invocation
traces, and the slots of any resulting containers) under every operation.
Only the allocation id can differ, and no operation's observable output
depends on it. -/
theorem C10_ofNullable_equiv (T : Type) :
    (∀ (v : T) (c₁ c₂ : Nat),
      Optional.ofNullable (some v) c₁ = (⟨c₁, some v⟩, c₁ + 1) ∧
      Optional.of (some v) c₂ = .ok (⟨c₂, some v⟩, c₂ + 1) ∧
      (Optional.ofNullable (some v) c₁).1.value
        = (⟨c₂, some v⟩ : Optional T).value) ∧
    (∀ c₃ c₄ : Nat,
      (Optional.ofNullable (none : Option T) c₃).1.value
        = (Optional.empty T c₄).1.value) ∧
    (∀ a b : Optional T, a.value = b.value →
      a.isEmpty = b.isEmpty ∧ a.isPresent = b.isPresent ∧
      a.get = b.get ∧ a.iterate = b.iterate ∧
      (∀ other, a.orElse other = b.orElse other) ∧
      (∀ fn, a.ifPresent fn = b.ifPresent fn) ∧
      (∀ nonEmptyFn emptyFn, a.ifPresentOrElse nonEmptyFn emptyFn
          = b.ifPresentOrElse nonEmptyFn emptyFn) ∧
      (∀ fn, a.orElseGet fn = b.orElseGet fn) ∧
      (∀ fn, a.orElseThrow fn = b.orElseThrow fn) ∧
      (∀ (fn : T → Bool) ctr,
        (a.filter fn ctr).1.1.value = (b.filter fn ctr).1.1.value ∧
        (a.filter fn ctr).1.2 = (b.filter fn ctr).1.2 ∧
        (a.filter fn ctr).2 = (b.filter fn ctr).2) ∧
      (∀ (fn : T → Option T) ctr, a.map fn ctr = b.map fn ctr) ∧
      (∀ (fn : T → Option (Optional T)) ctr,
        a.flatMap fn ctr = b.flatMap fn ctr) ∧
      (∀ fn, (a.or fn).map (fun p => (p.1.value, p.2))
          = (b.or fn).map (fun p => (p.1.value, p.2)))) := by
  refine ⟨fun v c₁ c₂ => ⟨rfl, rfl, rfl⟩, fun c₃ c₄ => rfl, ?_⟩
  rintro ⟨ai, av⟩ ⟨bi, bv⟩ h
  have h' : av = bv := h
  subst h'
  cases av with
  | none =>
      exact ⟨rfl, rfl, rfl, rfl, fun _ => rfl, fun _ => rfl,
        fun _ _ => rfl, fun _ => rfl, fun _ => rfl,
        fun _ _ => ⟨rfl, rfl, rfl⟩, fun _ _ => rfl, fun _ _ => rfl,
        fun _ => rfl⟩
  | some v =>
      exact ⟨rfl, rfl, rfl, rfl, fun _ => rfl, fun _ => rfl,
        fun _ _ => rfl, fun _ => rfl, fun _ => rfl,
        fun _ _ => ⟨rfl, rfl, rfl⟩, fun _ _ => rfl, fun _ _ => rfl,
        fun _ => rfl⟩

/-- C10 witness: the theorem applied at `T := Nat`: `ofNullable 5` and
`of 5` build equal slots; `ofNullable` of the marker and `empty` build
equal slots; two concrete slot-equal containers agree on `get`. -/
theorem C10_witness :
    Optional.ofNullable (some (5 : Nat)) 0 = (⟨0, some 5⟩, 1) ∧
    (Optional.ofNullable (none : Option Nat) 2).1.value
        = (Optional.empty Nat 3).1.value ∧
    Optional.get (⟨0, some (5 : Nat)⟩) = Optional.get (⟨1, some (5 : Nat)⟩) :=
  ⟨((C10_ofNullable_equiv Nat).1 5 0 0).1,
   (C10_ofNullable_equiv Nat).2.1 2 3,
   ((C10_ofNullable_equiv Nat).2.2 ⟨0, some 5⟩ ⟨1, some 5⟩ rfl).2.2.1⟩

end Mooltiploo
